import Mathlib

/-!
Verification development for the mpak scanner core
(`apps/scanner/src/mpak_scanner`): a shallow embedding of the data model
(`models.py`), the risk-score and compliance-level aggregation algorithms,
the orchestration loop of `scanner.py`, the SC-02 vulnerability
severity/blocking computation (`sc02_vuln_scan.py`), and the report
serialization (`SecurityReport.to_dict`).

Conventions of the embedding:
- Python dicts that preserve insertion order are modelled as association
  lists (`List (String × α)`) with first-match lookup and
  update-in-place-or-append insertion, which is exactly CPython dict
  behaviour for the unique-key dicts used here.
- Python `==` on strings/enums is modelled with decidable equality
  (`decide (a = b)`).
- Python truthiness of `metadata.get(key)` is modelled by `PyVal.truthy`
  with a missing key yielding `PyVal.none_` (falsy).
- Floats (CVSS, EPSS scores) are modelled as rationals; all thresholds in
  the source (9.0, 7.0, 4.0, 0.10) and the scores compared against them
  are exactly representable for the comparisons performed.
-/

/-- `Severity` from `models.py` (string enum, values `"critical"` … `"info"`). -/
inductive Severity where
  | critical
  | high
  | medium
  | low
  | info
deriving DecidableEq, Repr

/-- The `.value` string of a `Severity` member. -/
def Severity.value : Severity → String
  | .critical => "critical"
  | .high => "high"
  | .medium => "medium"
  | .low => "low"
  | .info => "info"

/-- `RiskScore` from `models.py`. -/
inductive RiskScore where
  | CRITICAL
  | HIGH
  | MEDIUM
  | LOW
  | NONE
deriving DecidableEq, Repr

/-- The `.value` string of a `RiskScore` member. -/
def RiskScore.value : RiskScore → String
  | .CRITICAL => "CRITICAL"
  | .HIGH => "HIGH"
  | .MEDIUM => "MEDIUM"
  | .LOW => "LOW"
  | .NONE => "NONE"

/-- `ControlStatus` from `models.py`. -/
inductive ControlStatus where
  | pass
  | fail
  | skip
  | error
deriving DecidableEq, Repr

/-- The `.value` string of a `ControlStatus` member. -/
def ControlStatus.value : ControlStatus → String
  | .pass => "pass"
  | .fail => "fail"
  | .skip => "skip"
  | .error => "error"

/-- A Python value stored in a `Finding.metadata` mapping, with the
truthiness semantics the aggregation code relies on. -/
inductive PyVal where
  | none_
  | bool (b : Bool)
  | str (s : String)
  | num (q : Rat)
  | strList (xs : List String)
deriving DecidableEq, Repr

/-- Python truthiness of a metadata value. -/
def PyVal.truthy : PyVal → Bool
  | .none_ => false
  | .bool b => b
  | .str s => decide (s ≠ "")
  | .num q => decide (q ≠ 0)
  | .strList xs => !xs.isEmpty

/-- First-match lookup in an association list (CPython dict `get` for the
unique-key dicts modelled here); missing key yields `none`. -/
def assocGet {α : Type} : List (String × α) → String → Option α
  | [], _ => none
  | (k', v) :: rest, k => if k' = k then some v else assocGet rest k

/-- `metadata.get(key)` with Python's `None` default. -/
def pyGet (m : List (String × PyVal)) (k : String) : PyVal :=
  (assocGet m k).getD PyVal.none_

/-- CPython dict `d[k] = v`: replace the value at the first occurrence of
the key, keeping its position, or append a fresh binding at the end. -/
def dictInsert {α : Type} : List (String × α) → String → α → List (String × α)
  | [], k, v => [(k, v)]
  | (k', v') :: rest, k, v =>
    if k' = k then (k', v) :: rest else (k', v') :: dictInsert rest k v

/-- CPython `d.update(e)`: insert every binding of `e` into `d` in order. -/
def dictUpdate {α : Type} (d e : List (String × α)) : List (String × α) :=
  e.foldl (fun acc p => dictInsert acc p.1 p.2) d

/-- `Finding` from `models.py`. -/
structure Finding where
  id : String
  control : String
  severity : Severity
  title : String
  description : String
  file : Option String := none
  line : Option Nat := none
  remediation : Option String := none
  in_deps : Bool := false
  metadata : List (String × PyVal) := []
deriving DecidableEq, Repr

/-- `ControlResult` from `models.py` (`raw_output` is omitted: it is only
read to surface the SBOM component count, outside the claims, and is not
serialized by `to_dict`). -/
structure ControlResult where
  control_id : String
  control_name : String
  status : ControlStatus
  findings : List Finding := []
  error : Option String := none
  duration_ms : Nat := 0
deriving DecidableEq, Repr

/-- `ControlResult.passed`: true iff the status is PASS. -/
def ControlResult.passed (r : ControlResult) : Bool :=
  decide (r.status = ControlStatus.pass)

/-- `DomainResult` from `models.py`: a dict from control id to result. -/
structure DomainResult where
  domain : String
  controls : List (String × ControlResult) := []
deriving DecidableEq, Repr

/-! ## Risk-score algorithm (`SecurityReport.risk_score`, models.py lines 194-270) -/

/-- The Tier-1 (CRITICAL) per-finding test: the disjunction of the seven
early-return conditions of the first loop of `risk_score`. -/
def critTier (f : Finding) : Bool :=
  (decide (f.control = "CD-03") &&
    (decide (f.severity = Severity.critical) || decide (f.severity = Severity.high))) ||
  (decide (f.control = "CQ-02") && decide (f.severity = Severity.critical)) ||
  (decide (f.control = "CQ-01") && (pyGet f.metadata "verified").truthy) ||
  (decide (f.control = "CQ-06") &&
    (decide (f.severity = Severity.critical) || decide (f.severity = Severity.high))) ||
  (decide (f.control = "SC-02") && decide (f.severity = Severity.critical)) ||
  (decide (f.control = "SC-02") && (pyGet f.metadata "in_kev").truthy) ||
  (decide (f.control = "CQ-07") &&
    (decide (f.severity = Severity.critical) || decide (f.severity = Severity.high)))

/-- Tier-2 `server_high` comprehension test: HIGH severity not in dependencies. -/
def serverHighP (f : Finding) : Bool :=
  decide (f.severity = Severity.high) && !f.in_deps

/-- Tier-2 `high_vulns` comprehension test: SC-02, HIGH, metadata "blocking" truthy. -/
def highVulnP (f : Finding) : Bool :=
  decide (f.control = "SC-02") && decide (f.severity = Severity.high) &&
    (pyGet f.metadata "blocking").truthy

/-- Tier-2 `oauth_issues` comprehension test: CD-04 or CD-05 with HIGH severity. -/
def oauthP (f : Finding) : Bool :=
  (decide (f.control = "CD-04") || decide (f.control = "CD-05")) &&
    decide (f.severity = Severity.high)

/-- Tier-3 `medium` comprehension test. -/
def mediumP (f : Finding) : Bool :=
  decide (f.severity = Severity.medium)

/-- `low_or_info` comprehension test. -/
def lowInfoP (f : Finding) : Bool :=
  decide (f.severity = Severity.low) || decide (f.severity = Severity.info)

/-- The body of `SecurityReport.risk_score` as a function of the flattened
findings list (the property first computes `findings = self.all_findings`
and then only uses that list). The Tier-1 loop returns CRITICAL on the
first finding satisfying any of the seven conditions, which equals
`findings.any critTier`; the later tiers test list-comprehension
non-emptiness. -/
def riskScoreOfFindings (findings : List Finding) : RiskScore :=
  if findings.any critTier then RiskScore.CRITICAL
  else if !(findings.filter serverHighP).isEmpty then RiskScore.HIGH
  else if !(findings.filter highVulnP).isEmpty then RiskScore.HIGH
  else if !(findings.filter oauthP).isEmpty then RiskScore.HIGH
  else if !(findings.filter mediumP).isEmpty then RiskScore.MEDIUM
  else if !(findings.filter lowInfoP).isEmpty then RiskScore.LOW
  else RiskScore.NONE

theorem filter_isEmpty_eq_not_any {α : Type} (p : α → Bool) (l : List α) :
    (l.filter p).isEmpty = !l.any p := by
  induction l with
  | nil => rfl
  | cons x xs ih =>
    by_cases h : p x <;> simp [List.filter_cons, List.any_cons, h, ih]

/-- `riskScoreOfFindings` written with `any` in every branch. -/
theorem riskScore_eq_any_form (findings : List Finding) :
    riskScoreOfFindings findings =
      (if findings.any critTier then RiskScore.CRITICAL
       else if findings.any serverHighP then RiskScore.HIGH
       else if findings.any highVulnP then RiskScore.HIGH
       else if findings.any oauthP then RiskScore.HIGH
       else if findings.any mediumP then RiskScore.MEDIUM
       else if findings.any lowInfoP then RiskScore.LOW
       else RiskScore.NONE) := by
  simp [riskScoreOfFindings, filter_isEmpty_eq_not_any]

/-! ## Compliance-level algorithm (`models.py` lines 104-154) -/

/-- `CONTROL_LEVELS` from `models.py`: per control, the level → required table. -/
def CONTROL_LEVELS : List (String × List (Nat × Bool)) :=
  [("AI-01", [(1, true), (2, true), (3, true), (4, true)]),
   ("AI-02", [(1, false), (2, false), (3, false), (4, false)]),
   ("AI-03", [(1, false), (2, false), (3, true), (4, true)]),
   ("AI-04", [(1, false), (2, false), (3, false), (4, true)]),
   ("AI-05", [(1, false), (2, true), (3, true), (4, true)]),
   ("SC-01", [(1, true), (2, true), (3, true), (4, true)]),
   ("SC-02", [(1, false), (2, true), (3, true), (4, true)]),
   ("SC-03", [(1, false), (2, true), (3, true), (4, true)]),
   ("SC-04", [(1, false), (2, true), (3, true), (4, true)]),
   ("SC-05", [(1, false), (2, false), (3, true), (4, true)]),
   ("CQ-01", [(1, true), (2, true), (3, true), (4, true)]),
   ("CQ-02", [(1, true), (2, true), (3, true), (4, true)]),
   ("CQ-03", [(1, false), (2, true), (3, true), (4, true)]),
   ("CQ-04", [(1, false), (2, false), (3, true), (4, true)]),
   ("CQ-05", [(1, false), (2, false), (3, true), (4, true)]),
   ("CQ-06", [(1, false), (2, false), (3, false), (4, true)]),
   ("CD-01", [(1, true), (2, true), (3, true), (4, true)]),
   ("CD-02", [(1, false), (2, true), (3, true), (4, true)]),
   ("CD-03", [(1, false), (2, true), (3, true), (4, true)]),
   ("CD-04", [(1, false), (2, false), (3, true), (4, true)]),
   ("CD-05", [(1, false), (2, false), (3, true), (4, true)]),
   ("PR-01", [(1, false), (2, true), (3, true), (4, true)]),
   ("PR-02", [(1, false), (2, true), (3, true), (4, true)]),
   ("PR-03", [(1, false), (2, false), (3, true), (4, true)]),
   ("PR-04", [(1, false), (2, false), (3, false), (4, true)]),
   ("PR-05", [(1, false), (2, false), (3, true), (4, true)])]

/-- `level_requirements.get(level, False)`: lookup in a per-control
requirement row with default `false`. -/
def reqGet (reqs : List (Nat × Bool)) (level : Nat) : Bool :=
  (match reqs.find? (fun p => p.1 == level) with
   | some p => p.2
   | none => false)

/-- The inner loop of `calculate_compliance_level` for one candidate level:
`level_passed` stays true iff every control required at this level has a
result that is present and `passed`. -/
def levelPassedB (control_results : List (String × ControlResult)) (level : Nat) : Bool :=
  CONTROL_LEVELS.all fun p =>
    !(reqGet p.2 level) ||
      (match assocGet control_results p.1 with
       | some r => r.passed
       | none => false)

/-- `calculate_compliance_level`: walk levels 4, 3, 2, 1 in order and
return the first achieved level, else 0 (NONE). The result is the
numeric `.value` of the `ComplianceLevel` enum. -/
def calculate_compliance_level (control_results : List (String × ControlResult)) : Nat :=
  if levelPassedB control_results 4 then 4
  else if levelPassedB control_results 3 then 3
  else if levelPassedB control_results 2 then 2
  else if levelPassedB control_results 1 then 1
  else 0

/-- `ComplianceLevel.name_str` from `models.py`. -/
def levelNameStr (level : Nat) : String :=
  if level = 0 then "None"
  else if level = 1 then "Basic"
  else if level = 2 then "Standard"
  else if level = 3 then "Verified"
  else if level = 4 then "Attested"
  else "Unknown"

/-! ## `SecurityReport` (`models.py` lines 157-351) -/

/-- `SecurityReport` from `models.py`. -/
structure SecurityReport where
  bundle_name : String
  bundle_version : String
  bundle_hash : String
  scan_timestamp : String
  scanner_version : String
  duration_ms : Nat
  domains : List (String × DomainResult) := []
  sbom_component_count : Nat := 0
  sbom_format : String := "cyclonedx"
deriving DecidableEq, Repr

/-- `SecurityReport.all_controls`: start from an empty dict and `update`
it with each domain's controls dict, in domain order. -/
def SecurityReport.all_controls (r : SecurityReport) : List (String × ControlResult) :=
  r.domains.foldl (fun acc p => dictUpdate acc p.2.controls) []

/-- `SecurityReport.all_findings`: the findings of every control of every
domain, concatenated in iteration order. -/
def SecurityReport.all_findings (r : SecurityReport) : List Finding :=
  r.domains.flatMap fun p => p.2.controls.flatMap fun q => q.2.findings

/-- `SecurityReport.compliance_level` (numeric value). -/
def SecurityReport.compliance_level (r : SecurityReport) : Nat :=
  calculate_compliance_level r.all_controls

/-- `SecurityReport.risk_score`. -/
def SecurityReport.risk_score (r : SecurityReport) : RiskScore :=
  riskScoreOfFindings r.all_findings

/-- `SecurityReport.controls_passed`: `sum(1 for c in values if c.passed)`. -/
def SecurityReport.controls_passed (r : SecurityReport) : Nat :=
  r.all_controls.countP fun p => p.2.passed

/-- `SecurityReport.controls_failed`: count of FAIL statuses. -/
def SecurityReport.controls_failed (r : SecurityReport) : Nat :=
  r.all_controls.countP fun p => decide (p.2.status = ControlStatus.fail)

/-- `SecurityReport.controls_total`: count of statuses other than SKIP. -/
def SecurityReport.controls_total (r : SecurityReport) : Nat :=
  r.all_controls.countP fun p => !decide (p.2.status = ControlStatus.skip)

/-! ## Characterizations of the risk-score tiers -/

theorem riskScore_eq_none_iff (l : List Finding) :
    riskScoreOfFindings l = RiskScore.NONE ↔
      ∀ f ∈ l, critTier f = false ∧ serverHighP f = false ∧ highVulnP f = false ∧
        oauthP f = false ∧ mediumP f = false ∧ lowInfoP f = false := by
  rw [riskScore_eq_any_form]
  constructor
  · intro h f hf
    split_ifs at h with h1 h2 h3 h4 h5 h6
    all_goals simp_all
  · intro h
    have h1 : l.any critTier = false := by
      simp only [List.any_eq_false]
      intro f hf
      simp [(h f hf).1]
    have h2 : l.any serverHighP = false := by
      simp only [List.any_eq_false]
      intro f hf
      simp [(h f hf).2.1]
    have h3 : l.any highVulnP = false := by
      simp only [List.any_eq_false]
      intro f hf
      simp [(h f hf).2.2.1]
    have h4 : l.any oauthP = false := by
      simp only [List.any_eq_false]
      intro f hf
      simp [(h f hf).2.2.2.1]
    have h5 : l.any mediumP = false := by
      simp only [List.any_eq_false]
      intro f hf
      simp [(h f hf).2.2.2.2.1]
    have h6 : l.any lowInfoP = false := by
      simp only [List.any_eq_false]
      intro f hf
      simp [(h f hf).2.2.2.2.2]
    simp [h1, h2, h3, h4, h5, h6]

theorem riskScore_eq_high_iff (l : List Finding) :
    riskScoreOfFindings l = RiskScore.HIGH ↔
      (l.any critTier = false ∧
        (l.any serverHighP = true ∨ l.any highVulnP = true ∨ l.any oauthP = true)) := by
  rw [riskScore_eq_any_form]
  split_ifs with h1 h2 h3 h4 h5 h6 <;> simp_all

/-- Claim C4: inserting a finding that satisfies the Tier-1 (CRITICAL)
test anywhere in the findings sequence makes the risk score CRITICAL,
whatever the surrounding findings are (tier short-circuit,
order-independent across tiers). -/
theorem C4_critical_insertion (pre post : List Finding) (f : Finding)
    (h : critTier f = true) :
    riskScoreOfFindings (pre ++ f :: post) = RiskScore.CRITICAL := by
  have hany : (pre ++ f :: post).any critTier = true := by
    simp only [List.any_eq_true]
    exact ⟨f, by simp, h⟩
  simp [riskScoreOfFindings, hany]

/-- A CD-03 finding with CRITICAL severity, used to witness C4. -/
def c4Crit : Finding :=
  { id := "CD-03-001", control := "CD-03", severity := Severity.critical,
    title := "Tool description poisoning", description := "d" }

/-- A LOW finding from an undesignated control, surrounding the C4 witness. -/
def c4Low : Finding :=
  { id := "PR-01-001", control := "PR-01", severity := Severity.low,
    title := "No repository", description := "d" }

/-- Witness for C4 at a concrete sequence: a CRITICAL-tier CD-03 finding
inserted between two LOW findings yields CRITICAL. -/
theorem C4_critical_insertion_witness :
    riskScoreOfFindings [c4Low, c4Crit, c4Low] = RiskScore.CRITICAL :=
  C4_critical_insertion [c4Low] [c4Low] c4Crit (by decide)

/-! ## Claim C5: dependency HIGH findings and the HIGH tier -/

/-- The single CD-04 finding refuting C5 as stated: HIGH severity and
`in_deps = true`, yet the `oauth_issues` rule elevates the risk score to
HIGH because that rule never consults `in_deps`. -/
def c5Dep : Finding :=
  { id := "CD-04-001", control := "CD-04", severity := Severity.high,
    title := "Excessive OAuth scope", description := "d", in_deps := true }

/-- A report whose findings are exactly `[c5Dep]`. -/
def c5Report : SecurityReport :=
  { bundle_name := "b", bundle_version := "1.0.0", bundle_hash := "sha256:ab",
    scan_timestamp := "t", scanner_version := "0.0.0", duration_ms := 0,
    domains := [("capability_declaration",
      { domain := "capability_declaration",
        controls := [("CD-04",
          { control_id := "CD-04", control_name := "Credential Scope Declaration",
            status := ControlStatus.fail, findings := [c5Dep] })] })] }

/-- Counterexample to claim C5 as stated: a report whose findings consist
of a single finding with `in_deps = true` and HIGH severity whose risk
score IS HIGH (control CD-04: the credential-scope rule ignores
`in_deps`). -/
theorem C5_counterexample :
    c5Report.all_findings = [c5Dep] ∧ c5Dep.in_deps = true ∧
      c5Dep.severity = Severity.high ∧ c5Report.risk_score = RiskScore.HIGH := by
  refine ⟨rfl, rfl, rfl, ?_⟩
  rfl

/-- The same finding re-attributed to CQ-01 and flagged as a verified
secret in its metadata (the fresh binding shadows any existing one, as a
dict overwrite would). -/
def withVerified (f : Finding) : Finding :=
  { f with control := "CQ-01", metadata := ("verified", PyVal.bool true) :: f.metadata }

/-- The same finding re-attributed to SC-02 and flagged as a KEV match. -/
def withKev (f : Finding) : Finding :=
  { f with control := "SC-02", metadata := ("in_kev", PyVal.bool true) :: f.metadata }

/-- Claim C5 (amended): a single HIGH-severity dependency finding does not
yield risk score HIGH provided its control is outside the
credential-scope/token-lifetime family (CD-04/CD-05) and it is not an
SC-02 finding flagged blocking; and the same finding flagged as a verified
secret under CQ-01, or as a KEV match under SC-02, yields CRITICAL. -/
theorem C5_dep_high (f : Finding)
    (hsev : f.severity = Severity.high) (hdep : f.in_deps = true)
    (hc4 : f.control ≠ "CD-04") (hc5 : f.control ≠ "CD-05")
    (hblk : highVulnP f = false) :
    riskScoreOfFindings [f] ≠ RiskScore.HIGH ∧
    riskScoreOfFindings [withVerified f] = RiskScore.CRITICAL ∧
    riskScoreOfFindings [withKev f] = RiskScore.CRITICAL := by
  refine ⟨?_, ?_, ?_⟩
  · have hs : serverHighP f = false := by simp [serverHighP, hsev, hdep]
    have ho : oauthP f = false := by simp [oauthP, hc4, hc5]
    have hm : mediumP f = false := by simp [mediumP, hsev]
    have hl : lowInfoP f = false := by simp [lowInfoP, hsev]
    rw [riskScore_eq_any_form]
    simp only [List.any_cons, List.any_nil, hs, ho, hm, hl, hblk, Bool.or_false]
    cases hcf : critTier f <;> simp
  · have hc : critTier (withVerified f) = true := by
      simp [critTier, withVerified, pyGet, assocGet, PyVal.truthy]
    simp [riskScoreOfFindings, hc]
  · have hc : critTier (withKev f) = true := by
      simp [critTier, withKev, pyGet, assocGet, PyVal.truthy]
    simp [riskScoreOfFindings, hc]

/-- Witness for C5 at a concrete finding: a HIGH dependency finding from
the undesignated control PR-01. -/
theorem C5_dep_high_witness :
    riskScoreOfFindings
      [{ id := "PR-01-001", control := "PR-01", severity := Severity.high,
         title := "t", description := "d", in_deps := true }] ≠ RiskScore.HIGH :=
  (C5_dep_high
    { id := "PR-01-001", control := "PR-01", severity := Severity.high,
      title := "t", description := "d", in_deps := true }
    rfl rfl (by decide) (by decide) (by decide)).1

/-! ## Claim C7: the NONE tier and the LOW/INFO collapse -/

/-- A HIGH-severity dependency finding from an undesignated control: it
matches no tier of `risk_score` at all. -/
def c7Dep : Finding :=
  { id := "CQ-03-001", control := "CQ-03", severity := Severity.high,
    title := "Dependency issue", description := "d", in_deps := true }

/-- A report whose findings are exactly `[c7Dep]`. -/
def c7Report : SecurityReport :=
  { bundle_name := "b", bundle_version := "1.0.0", bundle_hash := "sha256:ab",
    scan_timestamp := "t", scanner_version := "0.0.0", duration_ms := 0,
    domains := [("code_quality",
      { domain := "code_quality",
        controls := [("CQ-03",
          { control_id := "CQ-03", control_name := "Static Analysis",
            status := ControlStatus.fail, findings := [c7Dep] })] })] }

/-- Counterexample to claim C7 as stated ("risk score is NONE if and only
if the report contains no findings"): a report with a nonempty findings
list (one HIGH dependency finding from CQ-03) whose risk score is NONE. -/
theorem C7_counterexample :
    c7Report.all_findings = [c7Dep] ∧ c7Report.all_findings ≠ [] ∧
      c7Report.risk_score = RiskScore.NONE := by
  refine ⟨rfl, by decide, ?_⟩
  rfl

/-- Claim C7 (amended): an empty findings list yields NONE; NONE holds iff
no finding matches any tier (which can happen with findings present, e.g.
a HIGH dependency finding from an undesignated control); and when findings
exist, none matches the CRITICAL/HIGH/MEDIUM tiers, and some finding has
LOW or INFO severity, both yield the single reported tier LOW. -/
theorem C7_none_and_low (findings : List Finding) :
    (findings = [] → riskScoreOfFindings findings = RiskScore.NONE) ∧
    (riskScoreOfFindings findings = RiskScore.NONE ↔
      ∀ f ∈ findings, critTier f = false ∧ serverHighP f = false ∧ highVulnP f = false ∧
        oauthP f = false ∧ mediumP f = false ∧ lowInfoP f = false) ∧
    ((∀ f ∈ findings, critTier f = false ∧ serverHighP f = false ∧ highVulnP f = false ∧
        oauthP f = false ∧ mediumP f = false) →
      (∃ f ∈ findings, f.severity = Severity.low ∨ f.severity = Severity.info) →
      riskScoreOfFindings findings = RiskScore.LOW) := by
  refine ⟨?_, riskScore_eq_none_iff findings, ?_⟩
  · intro h
    subst h
    rfl
  · intro hnone hlow
    have h1 : findings.any critTier = false := by
      simp only [List.any_eq_false]
      intro f hf
      simp [(hnone f hf).1]
    have h2 : findings.any serverHighP = false := by
      simp only [List.any_eq_false]
      intro f hf
      simp [(hnone f hf).2.1]
    have h3 : findings.any highVulnP = false := by
      simp only [List.any_eq_false]
      intro f hf
      simp [(hnone f hf).2.2.1]
    have h4 : findings.any oauthP = false := by
      simp only [List.any_eq_false]
      intro f hf
      simp [(hnone f hf).2.2.2.1]
    have h5 : findings.any mediumP = false := by
      simp only [List.any_eq_false]
      intro f hf
      simp [(hnone f hf).2.2.2.2]
    have h6 : findings.any lowInfoP = true := by
      simp only [List.any_eq_true]
      obtain ⟨f, hf, hlo⟩ := hlow
      refine ⟨f, hf, ?_⟩
      rcases hlo with h | h <;> simp [lowInfoP, h]
    rw [riskScore_eq_any_form]
    simp [h1, h2, h3, h4, h5, h6]

/-- Witness for C7 at concrete inputs: one INFO finding and no
higher-tier findings yield LOW. -/
theorem C7_none_and_low_witness :
    riskScoreOfFindings
      [{ id := "PR-02-001", control := "PR-02", severity := Severity.info,
         title := "t", description := "d" }] = RiskScore.LOW :=
  (C7_none_and_low
    [{ id := "PR-02-001", control := "PR-02", severity := Severity.info,
       title := "t", description := "d" }]).2.2 (by decide) (by decide)

/-! ## Claim C3: the compliance-level ladder -/

/-- Spec-side achievement predicate for a candidate level: every control
required at that level has a result present with status PASS. -/
def AchievedP (results : List (String × ControlResult)) (L : Nat) : Prop :=
  ∀ p ∈ CONTROL_LEVELS, reqGet p.2 L = true →
    ∃ r, assocGet results p.1 = some r ∧ r.status = ControlStatus.pass

theorem passCheck_iff (b : Bool) (o : Option ControlResult) :
    (!b || (match o with | some r => r.passed | none => false)) = true ↔
      (b = true → ∃ r, o = some r ∧ r.status = ControlStatus.pass) := by
  cases b <;> cases o <;> simp [ControlResult.passed]

theorem levelPassedB_iff (results : List (String × ControlResult)) (L : Nat) :
    levelPassedB results L = true ↔ AchievedP results L := by
  simp only [levelPassedB, List.all_eq_true, AchievedP]
  exact forall_congr' fun p => forall_congr' fun _ => passCheck_iff _ _

/-- In the concrete `CONTROL_LEVELS` table, a control required at level 1
is also required at levels 2, 3 and 4. -/
theorem req1_mono : ∀ p ∈ CONTROL_LEVELS, reqGet p.2 1 = true →
    reqGet p.2 2 = true ∧ reqGet p.2 3 = true ∧ reqGet p.2 4 = true := by
  decide

/-- Claim C3: `calculate_compliance_level` returns the first level in
descending order 4, 3, 2, 1 at which every required control has a PASS
result (a missing, FAIL, SKIP or ERROR result blocks the level), 0 when no
level is achieved, and in particular a level-1-required control at SKIP
forces level 0 (NONE). -/
theorem C3_compliance (results : List (String × ControlResult)) :
    (calculate_compliance_level results = 4 ↔ AchievedP results 4) ∧
    (calculate_compliance_level results = 3 ↔
      ¬AchievedP results 4 ∧ AchievedP results 3) ∧
    (calculate_compliance_level results = 2 ↔
      ¬AchievedP results 4 ∧ ¬AchievedP results 3 ∧ AchievedP results 2) ∧
    (calculate_compliance_level results = 1 ↔
      ¬AchievedP results 4 ∧ ¬AchievedP results 3 ∧ ¬AchievedP results 2 ∧
        AchievedP results 1) ∧
    (calculate_compliance_level results = 0 ↔
      ¬AchievedP results 4 ∧ ¬AchievedP results 3 ∧ ¬AchievedP results 2 ∧
        ¬AchievedP results 1) ∧
    (∀ cid reqs r, (cid, reqs) ∈ CONTROL_LEVELS → reqGet reqs 1 = true →
      assocGet results cid = some r → r.status = ControlStatus.skip →
      calculate_compliance_level results = 0) := by
  have e4 := levelPassedB_iff results 4
  have e3 := levelPassedB_iff results 3
  have e2 := levelPassedB_iff results 2
  have e1 := levelPassedB_iff results 1
  have hall : (calculate_compliance_level results = 4 ↔ AchievedP results 4) ∧
      (calculate_compliance_level results = 3 ↔
        ¬AchievedP results 4 ∧ AchievedP results 3) ∧
      (calculate_compliance_level results = 2 ↔
        ¬AchievedP results 4 ∧ ¬AchievedP results 3 ∧ AchievedP results 2) ∧
      (calculate_compliance_level results = 1 ↔
        ¬AchievedP results 4 ∧ ¬AchievedP results 3 ∧ ¬AchievedP results 2 ∧
          AchievedP results 1) ∧
      (calculate_compliance_level results = 0 ↔
        ¬AchievedP results 4 ∧ ¬AchievedP results 3 ∧ ¬AchievedP results 2 ∧
          ¬AchievedP results 1) := by
    cases hb4 : levelPassedB results 4 <;> cases hb3 : levelPassedB results 3 <;>
      cases hb2 : levelPassedB results 2 <;> cases hb1 : levelPassedB results 1 <;>
      simp_all [calculate_compliance_level]
  refine ⟨hall.1, hall.2.1, hall.2.2.1, hall.2.2.2.1, hall.2.2.2.2, ?_⟩
  intro cid reqs r hmem h1 hget hskip
  have hm := req1_mono (cid, reqs) hmem h1
  have block : ∀ L, reqGet reqs L = true → ¬ AchievedP results L := by
    intro L hL hA
    obtain ⟨r', hget', hp⟩ := hA (cid, reqs) hmem hL
    rw [hget] at hget'
    have hrr := Option.some.inj hget'
    rw [← hrr, hskip] at hp
    simp at hp
  exact (hall.2.2.2.2).mpr ⟨block 4 hm.2.2, block 3 hm.2.1, block 2 hm.1, block 1 h1⟩

/-- Witness for C3: a result set whose only entry is AI-01 at status SKIP
yields level 0 via the required-but-skipped conjunct. -/
theorem C3_compliance_witness :
    calculate_compliance_level
      [("AI-01", { control_id := "AI-01", control_name := "Manifest Validation",
                   status := ControlStatus.skip, error := some "not run" })] = 0 :=
  (C3_compliance
    [("AI-01", { control_id := "AI-01", control_name := "Manifest Validation",
                 status := ControlStatus.skip, error := some "not run" })]).2.2.2.2.2
    "AI-01" [(1, true), (2, true), (3, true), (4, true)]
    { control_id := "AI-01", control_name := "Manifest Validation",
      status := ControlStatus.skip, error := some "not run" }
    (by decide) (by decide) (by decide) (by decide)

/-! ## Claim C6: SC-02 `_calculate_severity` (`sc02_vuln_scan.py` lines 271-331) -/

/-- `EPSS_ESCALATION_THRESHOLD` from `sc02_vuln_scan.py` (0.10). -/
def EPSS_ESCALATION_THRESHOLD : Rat := 1/10

/-- `SC02VulnerabilityScan._calculate_severity`, translated from the
source. Returns (severity, is_blocking, reason); Python's one-decimal
float formatting inside the reason strings is abstracted to `toString` of
the rational, which no claim depends on. -/
def calculate_severity (grype_severity : String) (cvss_score : Option Rat)
    (epss_score : Option Rat) (in_kev : Bool) : Severity × Bool × String :=
  if in_kev then (Severity.critical, true, "KEV: actively exploited")
  else
    match cvss_score with
    | some c =>
      if c ≥ 9 then (Severity.critical, true, "CVSS " ++ toString c)
      else if c ≥ 7 then
        match epss_score with
        | some e =>
          if e > EPSS_ESCALATION_THRESHOLD then
            (Severity.high, true, "CVSS " ++ toString c ++ " + EPSS " ++ toString e)
          else
            (Severity.medium, false,
              "CVSS " ++ toString c ++ ", EPSS " ++ toString e ++ " (low exploit probability)")
        | none => (Severity.high, true, "CVSS " ++ toString c ++ " (no EPSS data)")
      else if c ≥ 4 then (Severity.medium, false, "CVSS " ++ toString c)
      else (Severity.low, false, "CVSS " ++ toString c)
    | none =>
      if grype_severity = "critical" then (Severity.critical, true, "Grype: critical")
      else if grype_severity = "high" then (Severity.high, true, "Grype: high")
      else if grype_severity = "medium" then (Severity.medium, false, "Grype: medium")
      else if grype_severity = "low" then (Severity.low, false, "Grype: low")
      else (Severity.info, false, "")

/-- The (severity, blocking) part of a `calculate_severity` result. -/
def sbOf (t : Severity × Bool × String) : Severity × Bool := (t.1, t.2.1)

/-- Severity-and-blocking decision as worded by the specification's
enumeration (KEV first, then CVSS bands with the EPSS sub-decision, then
the vendor-label fallback). The final INFO default is outside the claim's
enumeration and unreachable under the equivalence theorem's hypothesis. -/
def severityBlockingSpec (label : String) (cvss epss : Option Rat) (kev : Bool) :
    Severity × Bool :=
  if kev then (Severity.critical, true)
  else
    match cvss with
    | some c =>
      if 9 ≤ c then (Severity.critical, true)
      else if 7 ≤ c ∧ c < 9 then
        match epss with
        | some e => if e > 1/10 then (Severity.high, true) else (Severity.medium, false)
        | none => (Severity.high, true)
      else if 4 ≤ c ∧ c < 7 then (Severity.medium, false)
      else (Severity.low, false)
    | none =>
      if label = "critical" then (Severity.critical, true)
      else if label = "high" then (Severity.high, true)
      else if label = "medium" then (Severity.medium, false)
      else if label = "low" then (Severity.low, false)
      else (Severity.info, false)

/-- Claim C6: the vulnerability severity-and-blocking computation agrees
with the spec's enumeration for every input it enumerates (any KEV flag,
any CVSS value, or one of the four vendor labels when CVSS is absent); in
particular CVSS 7.5 with exploit probability 0.05 outside KEV yields
MEDIUM and non-blocking. -/
theorem C6_severity_blocking :
    (∀ label cvss epss kev,
      (kev = true ∨ cvss ≠ none ∨ label = "critical" ∨ label = "high" ∨
        label = "medium" ∨ label = "low") →
      sbOf (calculate_severity label cvss epss kev) =
        severityBlockingSpec label cvss epss kev) ∧
    sbOf (calculate_severity "high" (some (15/2)) (some (1/20)) false) =
      (Severity.medium, false) := by
  constructor
  · intro label cvss epss kev h
    cases kev
    · cases cvss with
      | some c =>
        by_cases h9 : (9 : Rat) ≤ c
        · simp [calculate_severity, severityBlockingSpec, sbOf, h9, ge_iff_le]
        · have hc9 : c < 9 := not_le.mp h9
          by_cases h7 : (7 : Rat) ≤ c
          · cases epss with
            | none =>
              simp [calculate_severity, severityBlockingSpec, sbOf, h9, h7, hc9, ge_iff_le]
            | some e =>
              by_cases he : ((10 : Rat)⁻¹ < e) <;>
                simp [calculate_severity, severityBlockingSpec, sbOf, h9, h7, hc9, he,
                  EPSS_ESCALATION_THRESHOLD, ge_iff_le, gt_iff_lt]
          · have hc7 : c < 7 := not_le.mp h7
            by_cases h4 : (4 : Rat) ≤ c <;>
              simp [calculate_severity, severityBlockingSpec, sbOf, h9, h7, h4, hc7, ge_iff_le]
      | none =>
        rcases h with hkev | hc | hl | hl | hl | hl
        · cases hkev
        · exact absurd rfl hc
        all_goals subst hl
        all_goals simp [calculate_severity, severityBlockingSpec, sbOf]
    · simp [calculate_severity, severityBlockingSpec, sbOf]
  · have h75 : ¬ ((9 : Rat) ≤ 15/2) := by norm_num
    have h7 : (7 : Rat) ≤ 15/2 := by norm_num
    have he : ¬ ((10 : Rat)⁻¹ < (20 : Rat)⁻¹) := by norm_num
    simp [calculate_severity, sbOf, h75, h7, he, EPSS_ESCALATION_THRESHOLD,
      ge_iff_le, gt_iff_lt]

/-- Witness for C6: the claim's scenario input discharged through the
equivalence conjunct (CVSS 7.5, EPSS 0.05, not in KEV). -/
theorem C6_severity_blocking_witness :
    sbOf (calculate_severity "high" (some (15/2)) (some (1/20)) false) =
      severityBlockingSpec "high" (some (15/2)) (some (1/20)) false :=
  C6_severity_blocking.1 "high" (some (15/2)) (some (1/20)) false
    (Or.inr (Or.inl (by decide)))

/-! ## Claim C9: every SC-02 finding is a dependency finding -/

/-- The fields of one Grype match that `SC02VulnerabilityScan.run` reads
after parsing (`vulnerability.id`, `vulnerability.severity`, the CVSS base
score extracted by `get_cvss_score`, the description, the fix versions,
and the artifact name/version). -/
structure GrypeMatch where
  id : String
  severity : String
  cvss : Option Rat
  description : String
  fixVersions : List String
  artifactName : String
  artifactVersion : String
deriving DecidableEq, Repr

/-- A metadata value from an optional numeric score (`None` when absent). -/
def optRatVal : Option Rat → PyVal
  | some q => PyVal.num q
  | none => PyVal.none_

/-- One iteration of the finding-construction loop of
`SC02VulnerabilityScan.run` (lines 191-239): enrich, compute severity and
blocking, and build the Finding. Python's zero-padding of the index in the
finding id and the 150-character truncation of the description are
abstracted; no claim depends on them. -/
def sc02Finding (i : Nat) (m : GrypeMatch) (kev : List String)
    (epss : List (String × Rat)) : Finding :=
  let cve_id := m.id
  let epss_score := assocGet epss cve_id
  let in_kev := kev.contains cve_id
  let sbr := calculate_severity m.severity.toLower m.cvss epss_score in_kev
  let is_blocking := sbr.2.1
  let reason := sbr.2.2
  let d0 := if m.description = "" then "No description available" else m.description
  { id := "SC-02-" ++ toString i,
    control := "SC-02",
    severity := sbr.1,
    title := cve_id ++ ": " ++ m.artifactName,
    description := d0 ++ (if reason = "" then "" else " [" ++ reason ++ "]"),
    remediation :=
      if m.fixVersions.isEmpty then none
      else some ("Upgrade to version " ++ String.intercalate ", " m.fixVersions),
    in_deps := true,
    metadata := [("cve", PyVal.str cve_id),
                 ("package", PyVal.str m.artifactName),
                 ("version", PyVal.str m.artifactVersion),
                 ("fix_versions", PyVal.strList m.fixVersions),
                 ("cvss_score", optRatVal m.cvss),
                 ("epss_score", optRatVal epss_score),
                 ("in_kev", PyVal.bool in_kev),
                 ("blocking", PyVal.bool is_blocking),
                 ("blocking_reason", PyVal.str reason)] }

/-- The findings list built by `SC02VulnerabilityScan.run` from the parsed
matches and the enrichment data (`enumerate(matches)` drives the ids). -/
def sc02Findings (ms : List GrypeMatch) (kev : List String)
    (epss : List (String × Rat)) : List Finding :=
  ms.enum.map fun p => sc02Finding p.1 p.2 kev epss

/-- Claim C9: every finding built by SC-02's run has `in_deps = true` and
control id "SC-02", so it never satisfies the HIGH tier's server-code
test; consequently a findings list produced by SC-02 reaches risk HIGH
only through the blocking-metadata rule. -/
theorem C9_sc02_dep_findings (ms : List GrypeMatch) (kev : List String)
    (epss : List (String × Rat)) :
    (∀ f ∈ sc02Findings ms kev epss,
      f.in_deps = true ∧ f.control = "SC-02" ∧ serverHighP f = false) ∧
    (riskScoreOfFindings (sc02Findings ms kev epss) = RiskScore.HIGH →
      ∃ f ∈ sc02Findings ms kev epss, f.severity = Severity.high ∧
        (pyGet f.metadata "blocking").truthy = true) := by
  have hmain : ∀ f ∈ sc02Findings ms kev epss,
      f.in_deps = true ∧ f.control = "SC-02" ∧ serverHighP f = false := by
    intro f hf
    obtain ⟨p, _, rfl⟩ := List.mem_map.mp hf
    refine ⟨rfl, rfl, ?_⟩
    simp [serverHighP, sc02Finding]
  refine ⟨hmain, ?_⟩
  intro h
  rw [riskScore_eq_high_iff] at h
  obtain ⟨-, hhigh⟩ := h
  rcases hhigh with hs | hv | ho
  · rw [List.any_eq_true] at hs
    obtain ⟨f, hf, hsf⟩ := hs
    exact absurd hsf (by simp [(hmain f hf).2.2])
  · rw [List.any_eq_true] at hv
    obtain ⟨f, hf, hvf⟩ := hv
    simp only [highVulnP, Bool.and_eq_true, decide_eq_true_eq] at hvf
    exact ⟨f, hf, hvf.1.2, hvf.2⟩
  · rw [List.any_eq_true] at ho
    obtain ⟨f, hf, hof⟩ := ho
    have hc := (hmain f hf).2.1
    simp [oauthP, hc] at hof

/-- A concrete Grype match used to witness C9. -/
def c9Match : GrypeMatch :=
  { id := "CVE-2021-44228", severity := "Critical", cvss := some 10,
    description := "Remote code execution", fixVersions := ["2.17.0"],
    artifactName := "log4j-core", artifactVersion := "2.14.0" }

/-- Witness for C9 at one concrete match: the produced finding has
`in_deps = true`. -/
theorem C9_sc02_dep_findings_witness :
    (sc02Finding 0 c9Match [] []).in_deps = true := by
  have hmem : sc02Finding 0 c9Match [] [] ∈ sc02Findings [c9Match] [] [] := by
    rw [show sc02Findings [c9Match] [] [] = [sc02Finding 0 c9Match [] []] from rfl]
    exact List.mem_singleton.mpr rfl
  exact ((C9_sc02_dep_findings [c9Match] [] []).1 _ hmem).1

/-! ## Claim C2: per-control exception isolation in `scan_bundle` -/

/-- The outcome of one control's `run(extract_dir, manifest)` call within
a given scan: either a returned `ControlResult` or an escaped exception
carrying its message (`str(e)`). -/
inductive RunOutcome where
  | ok (r : ControlResult)
  | exc (msg : String)
deriving DecidableEq, Repr

/-- One resolved control as the engine sees it: its static metadata and
the outcome its `run` produces during this scan. -/
structure ControlModel where
  id : String
  name : String
  domain : String
  run : RunOutcome
deriving DecidableEq, Repr

/-- The `try/except` around `control.run(...)` in `scan_bundle` (lines
184-193): a raised exception becomes a `ControlResult` with status ERROR
and the exception message as the `error` field; the dataclass defaults
supply empty findings and zero duration. -/
def runControl (c : ControlModel) : ControlResult :=
  match c.run with
  | .ok r => r
  | .exc msg =>
    { control_id := c.id, control_name := c.name, status := ControlStatus.error,
      findings := [], error := some msg, duration_ms := 0 }

/-- Filing one result under the control's declared domain (lines 195-202):
update the existing domain's controls dict, or create the domain. -/
def fileResult : List (String × DomainResult) → String → String → ControlResult →
    List (String × DomainResult)
  | [], dom, cid, res => [(dom, { domain := dom, controls := [(cid, res)] })]
  | (k, dr) :: rest, dom, cid, res =>
    if k = dom then (k, { dr with controls := dictInsert dr.controls cid res }) :: rest
    else (k, dr) :: fileResult rest dom cid res

/-- The control loop of `scan_bundle`: run each resolved control under
isolation and file its result. -/
def runControls (domains : List (String × DomainResult)) :
    List ControlModel → List (String × DomainResult)
  | [] => domains
  | c :: rest => runControls (fileResult domains c.domain c.id (runControl c)) rest

/-- `DOMAINS` from `scanner.py`. -/
def DOMAINS : List (String × List String) :=
  [("artifact_integrity", ["AI-01", "AI-02", "AI-03", "AI-04", "AI-05"]),
   ("supply_chain", ["SC-01", "SC-02", "SC-03", "SC-04", "SC-05"]),
   ("code_quality", ["CQ-01", "CQ-02", "CQ-03", "CQ-04", "CQ-05", "CQ-06"]),
   ("capability_declaration", ["CD-01", "CD-02", "CD-03", "CD-04", "CD-05"]),
   ("provenance", ["PR-01", "PR-02", "PR-03", "PR-04", "PR-05"])]

/-- The per-domain initialization of `scan_bundle` (lines 168-170). -/
def initDomains : List (String × DomainResult) :=
  DOMAINS.map fun p => (p.1, { domain := p.1, controls := [] })

/-- Lookup of one control's filed result in the report's domain map. -/
def reportGet (domains : List (String × DomainResult)) (dom cid : String) :
    Option ControlResult :=
  match assocGet domains dom with
  | some d => assocGet d.controls cid
  | none => none

/-- The failure structure of `scan_bundle`: hashing and extraction happen
before any control runs and propagate their exceptions; once they succeed
the control loop always completes and a report is returned. -/
def scanModel (hashOutcome : Except String String)
    (extractOutcome : Except String Unit) (controls : List ControlModel) :
    Except String (List (String × DomainResult)) :=
  match hashOutcome with
  | .error e => .error e
  | .ok _ =>
    match extractOutcome with
    | .error e => .error e
    | .ok _ => .ok (runControls initDomains controls)

theorem dictInsert_get_self {α : Type} (d : List (String × α)) (k : String) (v : α) :
    assocGet (dictInsert d k v) k = some v := by
  induction d with
  | nil => simp [dictInsert, assocGet]
  | cons p rest ih =>
    obtain ⟨k', v'⟩ := p
    by_cases h : k' = k <;> simp [dictInsert, assocGet, h, ih]

theorem dictInsert_get_other {α : Type} (d : List (String × α)) (k k₀ : String) (v : α)
    (hne : k ≠ k₀) : assocGet (dictInsert d k v) k₀ = assocGet d k₀ := by
  induction d with
  | nil => simp [dictInsert, assocGet, hne]
  | cons p rest ih =>
    obtain ⟨k', v'⟩ := p
    by_cases h : k' = k
    · subst h
      simp [dictInsert, assocGet, hne]
    · by_cases h0 : k' = k₀ <;> simp [dictInsert, assocGet, h, h0, ih, Ne.symm hne]

theorem fileResult_get_self (d : List (String × DomainResult)) (dom cid : String)
    (res : ControlResult) : reportGet (fileResult d dom cid res) dom cid = some res := by
  induction d with
  | nil => simp [fileResult, reportGet, assocGet, dictInsert]
  | cons p rest ih =>
    obtain ⟨k, dr⟩ := p
    by_cases h : k = dom
    · subst h
      simp [fileResult, reportGet, assocGet, dictInsert_get_self]
    · simp only [fileResult, if_neg h]
      simpa [reportGet, assocGet, h] using ih

theorem fileResult_get_other (d : List (String × DomainResult)) (dom cid : String)
    (res : ControlResult) (dom' cid' : String) (hne : cid ≠ cid') :
    reportGet (fileResult d dom cid res) dom' cid' = reportGet d dom' cid' := by
  induction d with
  | nil =>
    by_cases h : dom = dom' <;> simp [fileResult, reportGet, assocGet, h, hne]
  | cons p rest ih =>
    obtain ⟨k, dr⟩ := p
    by_cases h : k = dom
    · subst h
      by_cases h' : k = dom' <;>
        simp [fileResult, reportGet, assocGet, h', dictInsert_get_other _ _ _ _ hne]
    · by_cases h' : k = dom'
      · subst h'
        simp [fileResult, reportGet, assocGet, h]
      · simp only [fileResult, if_neg h]
        simpa [reportGet, assocGet, h'] using ih

theorem runControls_preserve (cs : List ControlModel)
    (domains : List (String × DomainResult)) (dom cid : String)
    (h : ∀ c ∈ cs, c.id ≠ cid) :
    reportGet (runControls domains cs) dom cid = reportGet domains dom cid := by
  induction cs generalizing domains with
  | nil => rfl
  | cons c rest ih =>
    simp only [runControls]
    rw [ih _ (fun c' hc' => h c' (List.mem_cons_of_mem _ hc')),
      fileResult_get_other _ _ _ _ _ _ (h c (List.mem_cons_self _ _))]

theorem runControls_mem (cs : List ControlModel)
    (h : (cs.map (fun c => c.id)).Nodup) (c : ControlModel) (hc : c ∈ cs) :
    ∀ domains, reportGet (runControls domains cs) c.domain c.id = some (runControl c) := by
  induction cs with
  | nil => cases hc
  | cons c0 rest ih =>
    intro domains
    simp only [List.map_cons, List.nodup_cons] at h
    rcases List.mem_cons.mp hc with heq | hmem
    · subst heq
      simp only [runControls]
      rw [runControls_preserve rest _ c.domain c.id
        (fun c' hc' heq' => h.1 (heq' ▸ List.mem_map_of_mem _ hc'))]
      exact fileResult_get_self _ _ _ _
    · simp only [runControls]
      exact ih h.2 hmem _

/-- Claim C2: with registry-resolved (hence distinct) control ids, every
control's filed result is exactly `runControl` of that control alone (so
one control's crash cannot affect another's result); a raised exception
becomes a ControlResult with status ERROR carrying the exception message;
and `scan` fails only on the pre-control hash/extraction failures — once
those succeed, the control loop always returns a report. -/
theorem C2_isolation (controls : List ControlModel)
    (hids : (controls.map (fun c => c.id)).Nodup) :
    (∀ c ∈ controls,
      reportGet (runControls initDomains controls) c.domain c.id = some (runControl c)) ∧
    (∀ c msg, c.run = RunOutcome.exc msg → runControl c =
      { control_id := c.id, control_name := c.name, status := ControlStatus.error,
        findings := [], error := some msg, duration_ms := 0 }) ∧
    (∀ h e, (∃ m, scanModel h e controls = Except.error m) ↔
      ((∃ m, h = Except.error m) ∨ (∃ m, e = Except.error m))) := by
  refine ⟨fun c hc => runControls_mem controls hids c hc initDomains, ?_, ?_⟩
  · intro c msg hr
    simp [runControl, hr]
  · intro h e
    cases h <;> cases e <;> simp [scanModel]

/-- A control that returns a PASS result, for the C2 witness. -/
def c2okControl : ControlModel :=
  { id := "SC-01", name := "SBOM Generation", domain := "supply_chain",
    run := RunOutcome.ok
      { control_id := "SC-01", control_name := "SBOM Generation",
        status := ControlStatus.pass } }

/-- A control whose run raises an exception, for the C2 witness. -/
def c2excControl : ControlModel :=
  { id := "CQ-01", name := "Secret Detection", domain := "code_quality",
    run := RunOutcome.exc "boom" }

/-- Witness for C2 at a concrete scan of two controls, one of which
raises: the crashing control is filed as an ERROR result with the
exception message, under its domain. -/
theorem C2_isolation_witness :
    reportGet (runControls initDomains [c2okControl, c2excControl])
      c2excControl.domain c2excControl.id =
      some { control_id := "CQ-01", control_name := "Secret Detection",
             status := ControlStatus.error, findings := [], error := some "boom",
             duration_ms := 0 } := by
  have h := (C2_isolation [c2okControl, c2excControl] (by decide)).1 c2excControl
    (by decide)
  rw [h]
  rfl

/-! ## Claim C1: archive extraction and path traversal -/

/-- Modelled from CPython's `zipfile.ZipFile.extractall` →
`_extract_member` name handling, which `extract_bundle` (scanner.py lines
99-110) calls with no validation of its own: the entry name — here given
as its slash-separated components — has its empty, `"."` and `".."`
components dropped, and the member is then written at the joined
remainder under the destination. No entry name is ever rejected. -/
def sanitizeComponents (name : List String) : List String :=
  name.filter fun c => decide (c ≠ "" ∧ c ≠ "." ∧ c ≠ "..")

/-- The target path (as components) at which one archive entry is written
beneath the destination directory. -/
def extractTarget (dest : List String) (entryName : List String) : List String :=
  dest ++ sanitizeComponents entryName

/-- The written paths of `zf.extractall(extract_dir)` for an archive with
the given entry names. -/
def extractAllTargets (dest : List String) (entries : List (List String)) :
    List (List String) :=
  entries.map (extractTarget dest)

/-- `extract_bundle`'s extraction step: every entry is extracted; there is
no entry-name-based failure path (archive-corruption failures are
orthogonal to the claim and not modelled). -/
def extract_bundle (dest : List String) (entries : List (List String)) :
    Except String (List (List String)) :=
  Except.ok (extractAllTargets dest entries)

/-- Counterexample to claim C1 as stated: an archive containing the
path-traversal entry `../../etc/passwd` is NOT rejected — extraction
succeeds without any error and writes the entry inside the destination at
its sanitized path `dest/etc/passwd`. -/
theorem C1_counterexample :
    extract_bundle ["dest"] [["..", "..", "etc", "passwd"]] =
      Except.ok [["dest", "etc", "passwd"]] := by
  rfl

/-- Claim C1 (amended): extraction writes zero files outside the
destination root — every written path is the destination extended by
components none of which is `".."`, `"."` or empty — but a traversal
entry is not rejected with an error: extraction always returns all
entries' sanitized target paths. -/
theorem C1_no_escape (dest : List String) (entries : List (List String)) :
    (∀ p ∈ extractAllTargets dest entries,
      ∃ rest, p = dest ++ rest ∧ ∀ c ∈ rest, c ≠ ".." ∧ c ≠ "." ∧ c ≠ "") ∧
    extract_bundle dest entries = Except.ok (extractAllTargets dest entries) := by
  refine ⟨?_, rfl⟩
  intro p hp
  obtain ⟨name, _, rfl⟩ := List.mem_map.mp hp
  refine ⟨sanitizeComponents name, rfl, ?_⟩
  intro c hc
  have := List.of_mem_filter hc
  simp only [decide_eq_true_eq] at this
  exact ⟨this.2.2, this.2.1, this.1⟩

/-- Witness for C1 at a concrete archive: the traversal entry's written
path extends the destination. -/
theorem C1_no_escape_witness :
    ∃ rest, (["dest", "etc", "passwd"] : List String) = ["dest"] ++ rest ∧
      ∀ c ∈ rest, c ≠ ".." ∧ c ≠ "." ∧ c ≠ "" :=
  (C1_no_escape ["dest"] [["..", "..", "etc", "passwd"]]).1
    ["dest", "etc", "passwd"] (by decide)

/-! ## Claims C8 and C10: `SecurityReport.to_dict` (`models.py` lines 287-351) -/

/-- A JSON-compatible value, the codomain of `to_dict`. -/
inductive JValue where
  | null
  | str (s : String)
  | num (n : Int)
  | bool (b : Bool)
  | arr (xs : List JValue)
  | obj (fields : List (String × JValue))

/-- Reading one key back out of a serialized object. -/
def jGet : JValue → String → Option JValue
  | .obj fields, k => assocGet fields k
  | _, _ => none

/-- Reading a two-deep path back out of a serialized object. -/
def jGet2 (j : JValue) (k1 k2 : String) : Option JValue :=
  match jGet j k1 with
  | some x => jGet x k2
  | none => none

/-- An optional string field (`None` serializes to null). -/
def optStrJ : Option String → JValue
  | some s => .str s
  | none => .null

/-- An optional numeric field (`None` serializes to null). -/
def optNatJ : Option Nat → JValue
  | some n => .num n
  | none => .null

/-- One finding of the flattened top-level `findings` array (with its
`control` key). -/
def flatFindingJ (f : Finding) : JValue :=
  .obj [("id", .str f.id), ("control", .str f.control),
        ("severity", .str f.severity.value), ("title", .str f.title),
        ("description", .str f.description), ("file", optStrJ f.file),
        ("line", optNatJ f.line), ("remediation", optStrJ f.remediation)]

/-- One finding of the nested `domains…findings` arrays (no `control`
key in the source's nested serializer). -/
def nestedFindingJ (f : Finding) : JValue :=
  .obj [("id", .str f.id), ("severity", .str f.severity.value),
        ("title", .str f.title), ("description", .str f.description),
        ("file", optStrJ f.file), ("line", optNatJ f.line),
        ("remediation", optStrJ f.remediation)]

/-- One control of the nested `domains` block; the `error` key is present
only when `ctrl.error` is truthy (a non-empty string). -/
def controlJ (c : ControlResult) : JValue :=
  .obj ([("status", .str c.status.value),
         ("findings", .arr (c.findings.map nestedFindingJ))] ++
        (match c.error with
         | some e => if e = "" then [] else [("error", .str e)]
         | none => []))

/-- One domain of the nested `domains` block. -/
def domainJ (d : DomainResult) : JValue :=
  .obj [("controls", .obj (d.controls.map fun p => (p.1, controlJ p.2)))]

/-- `SecurityReport.to_dict`: the wire-format report. -/
def SecurityReport.to_dict (r : SecurityReport) : JValue :=
  .obj [("version", .str "1.0.0"),
        ("bundle", .obj [("name", .str r.bundle_name),
                         ("version", .str r.bundle_version),
                         ("hash", .str r.bundle_hash)]),
        ("scan", .obj [("timestamp", .str r.scan_timestamp),
                       ("scanner", .str "mpak-scanner"),
                       ("scanner_version", .str r.scanner_version),
                       ("duration_ms", .num r.duration_ms)]),
        ("compliance", .obj [("level", .num r.compliance_level),
                             ("level_name", .str (levelNameStr r.compliance_level)),
                             ("controls_passed", .num r.controls_passed),
                             ("controls_failed", .num r.controls_failed),
                             ("controls_total", .num r.controls_total)]),
        ("risk_score", .str r.risk_score.value),
        ("domains", .obj (r.domains.map fun p => (p.1, domainJ p.2))),
        ("findings", .arr (r.all_findings.map flatFindingJ)),
        ("sbom", .obj [("format", .str r.sbom_format),
                       ("component_count", .num r.sbom_component_count)])]

/-- Claim C8: reading the wire dictionary back preserves the bundle hash
at `bundle.hash`, the numeric compliance level at `compliance.level`, the
risk score string at `risk_score`, and the flattened findings array is the
report's findings serialized in order, each entry exposing the finding's
id, severity and title. -/
theorem C8_round_trip (r : SecurityReport) :
    jGet2 r.to_dict "bundle" "hash" = some (JValue.str r.bundle_hash) ∧
    jGet2 r.to_dict "compliance" "level" = some (JValue.num r.compliance_level) ∧
    jGet r.to_dict "risk_score" = some (JValue.str r.risk_score.value) ∧
    jGet r.to_dict "findings" = some (JValue.arr (r.all_findings.map flatFindingJ)) ∧
    ∀ f : Finding, jGet (flatFindingJ f) "id" = some (JValue.str f.id) ∧
      jGet (flatFindingJ f) "severity" = some (JValue.str f.severity.value) ∧
      jGet (flatFindingJ f) "title" = some (JValue.str f.title) := by
  exact ⟨rfl, rfl, rfl, rfl, fun f => ⟨rfl, rfl, rfl⟩⟩

/-- The control statuses partition the non-SKIP count: PASS + FAIL +
ERROR counts sum to the not-SKIP count. -/
theorem status_count_partition (l : List (String × ControlResult)) :
    l.countP (fun p => decide (p.2.status = ControlStatus.pass)) +
      l.countP (fun p => decide (p.2.status = ControlStatus.fail)) +
      l.countP (fun p => decide (p.2.status = ControlStatus.error)) =
      l.countP (fun p => !decide (p.2.status = ControlStatus.skip)) := by
  induction l with
  | nil => rfl
  | cons x xs ih =>
    cases hx : x.2.status <;>
      simp [List.countP_cons, hx] <;> omega

/-- Claim C10: the serialized compliance block's counts are exactly the
PASS count, the FAIL count and the non-SKIP count of the report's
controls; hence an ERROR control contributes to `controls_total` only,
`controls_passed + controls_failed ≤ controls_total`, and equality forces
the ERROR count to zero. -/
theorem C10_control_counts (r : SecurityReport) :
    jGet2 r.to_dict "compliance" "controls_passed" =
      some (JValue.num r.controls_passed) ∧
    jGet2 r.to_dict "compliance" "controls_failed" =
      some (JValue.num r.controls_failed) ∧
    jGet2 r.to_dict "compliance" "controls_total" =
      some (JValue.num r.controls_total) ∧
    r.controls_passed =
      r.all_controls.countP (fun p => decide (p.2.status = ControlStatus.pass)) ∧
    r.controls_failed =
      r.all_controls.countP (fun p => decide (p.2.status = ControlStatus.fail)) ∧
    r.controls_total =
      r.all_controls.countP (fun p => !decide (p.2.status = ControlStatus.skip)) ∧
    r.controls_passed + r.controls_failed ≤ r.controls_total ∧
    (r.controls_passed + r.controls_failed = r.controls_total →
      r.all_controls.countP (fun p => decide (p.2.status = ControlStatus.error)) = 0) := by
  have h := status_count_partition r.all_controls
  refine ⟨rfl, rfl, rfl, rfl, rfl, rfl, ?_, ?_⟩
  · simp only [SecurityReport.controls_passed, SecurityReport.controls_failed,
      SecurityReport.controls_total, ControlResult.passed]
    omega
  · simp only [SecurityReport.controls_passed, SecurityReport.controls_failed,
      SecurityReport.controls_total, ControlResult.passed]
    omega

/-- A one-control report (SC-01 at PASS) used to witness C10. -/
def c10Report : SecurityReport :=
  { bundle_name := "b", bundle_version := "1.0.0", bundle_hash := "sha256:ab",
    scan_timestamp := "t", scanner_version := "0.0.0", duration_ms := 0,
    domains := [("supply_chain",
      { domain := "supply_chain",
        controls := [("SC-01",
          { control_id := "SC-01", control_name := "SBOM Generation",
            status := ControlStatus.pass })] })] }

/-- Witness for C10 at a concrete report where passed + failed = total:
the ERROR count is zero. -/
theorem C10_control_counts_witness :
    c10Report.all_controls.countP
      (fun p => decide (p.2.status = ControlStatus.error)) = 0 :=
  (C10_control_counts c10Report).2.2.2.2.2.2.2 (by decide)
